import Mathlib

/-!
Verification of the IS218GR8 interactive web-map subsystem.

Shallow embedding of the aggregation / cache / spatial-filter code
(`DataModel.js`, `MapModel.js`, `AppController.js` and the bundled
`app.js`) together with proofs and refutations of the specified
properties.

JavaScript numbers are modelled as real numbers (`ℝ`) where the code does
transcendental arithmetic (the haversine distance), and as exact values
(`ℚ`, `Nat`) where the code only moves data around.  JavaScript `Map`s are
modelled as association lists in insertion order, matching `Map.set` /
`Map.get` / `Map.has` semantics for unique keys.
-/

namespace Spatial

/-- A GeoJSON point feature as consumed by `DataModel.filterByDistance`:
the code destructures `feature.geometry.coordinates` as `[lng, lat]` and
keeps the whole feature object in the output. Properties are carried along
untouched. -/
structure Feature where
  lng : ℝ
  lat : ℝ
  props : List (String × String)

/-- A GeoJSON FeatureCollection: `{type: 'FeatureCollection', features: [...]}`. -/
structure FeatureCollection where
  features : List Feature

/-- JavaScript `Math.atan2(y, x)`: the angle of the point `(x, y)`,
in `(-π, π]`, with `atan2 0 0 = 0`. -/
noncomputable def atan2 (y x : ℝ) : ℝ :=
  if 0 < x then Real.arctan (y / x)
  else if x < 0 then
    (if 0 ≤ y then Real.arctan (y / x) + Real.pi
     else Real.arctan (y / x) - Real.pi)
  else
    (if 0 < y then Real.pi / 2
     else if y < 0 then -(Real.pi / 2)
     else 0)

/-- The intermediate value `a` of the haversine formula in
`DataModel.filterByDistance` (DataModel.js lines 128-132):
`a = sin²(dLat/2) + cos(lat1·π/180)·cos(lat2·π/180)·sin²(dLng/2)`
with `dLat = (lat2-lat1)·π/180` and `dLng = (lng2-lng1)·π/180`. -/
noncomputable def havA (lat1 lng1 lat2 lng2 : ℝ) : ℝ :=
  Real.sin ((lat2 - lat1) * Real.pi / 180 / 2) ^ 2 +
    Real.cos (lat1 * Real.pi / 180) * Real.cos (lat2 * Real.pi / 180) *
      Real.sin ((lng2 - lng1) * Real.pi / 180 / 2) ^ 2

/-- The great-circle distance computed inside `DataModel.filterByDistance`
(DataModel.js lines 119-134): `distance = R · 2·atan2(√a, √(1-a))` with
`R = 6371` km. -/
noncomputable def haversineDistance (lat1 lng1 lat2 lng2 : ℝ) : ℝ :=
  6371 * (2 * atan2 (Real.sqrt (havA lat1 lng1 lat2 lng2))
                    (Real.sqrt (1 - havA lat1 lng1 lat2 lng2)))

open Classical in
/-- `DataModel.filterByDistance(geojson, point, radiusKm)`
(DataModel.js lines 118-140): `point` is `[lat1, lng1]`, each feature's
coordinates are `[lng2, lat2]`, and a feature is kept iff
`distance <= radiusKm`. -/
noncomputable def filterByDistance (geojson : FeatureCollection)
    (point : ℝ × ℝ) (radiusKm : ℝ) : FeatureCollection :=
  { features := geojson.features.filter (fun feature =>
      decide (haversineDistance point.1 point.2 feature.lat feature.lng ≤ radiusKm)) }

/-- Outcome of `AppController.performSpatialSearch`: either an early-return
toast (`'Click on the map to set search center'` or
`'No data available for search'`) or a search-result collection that is
rendered and reported via the `'Found N features within Rkm'` toast. -/
inductive SearchOutcome
  | noCenter
  | noData
  | result (filtered : FeatureCollection)

/-- `AppController.performSpatialSearch(radiusKm)` (AppController.js lines
139-177, bundled app.js lines 1121-1156): returns early if no search point
is set or the `'geojson-local'` layer has no data; otherwise filters the
layer's features by distance and produces the result collection. -/
noncomputable def performSpatialSearch (currentSearchPoint : Option (ℝ × ℝ))
    (layerData : Option FeatureCollection) (radiusKm : ℝ) : SearchOutcome :=
  match currentSearchPoint with
  | none => .noCenter
  | some point =>
    match layerData with
    | none => .noData
    | some data => .result (filterByDistance data point radiusKm)

lemma havA_symm (lat1 lng1 lat2 lng2 : ℝ) :
    havA lat1 lng1 lat2 lng2 = havA lat2 lng2 lat1 lng1 := by
  unfold havA
  have h1 : (lat2 - lat1) * Real.pi / 180 / 2 = -((lat1 - lat2) * Real.pi / 180 / 2) := by ring
  have h2 : (lng2 - lng1) * Real.pi / 180 / 2 = -((lng1 - lng2) * Real.pi / 180 / 2) := by ring
  rw [h1, h2, Real.sin_neg, Real.sin_neg, neg_sq, neg_sq]
  ring

lemma havA_diag (lat lng : ℝ) : havA lat lng lat lng = 0 := by
  unfold havA
  simp

lemma atan2_zero_one : atan2 0 1 = 0 := by
  unfold atan2
  norm_num

lemma haversineDistance_diag (lat lng : ℝ) : haversineDistance lat lng lat lng = 0 := by
  unfold haversineDistance
  rw [havA_diag]
  norm_num [atan2_zero_one]

/-- C7.  The great-circle distance computed by the radius filter is
symmetric (`distance(A,B) = distance(B,A)` for all points) and zero on the
diagonal (`distance(A,A) = 0`). -/
theorem haversine_symm_and_diag :
    (∀ lat1 lng1 lat2 lng2 : ℝ,
        haversineDistance lat1 lng1 lat2 lng2 = haversineDistance lat2 lng2 lat1 lng1) ∧
    (∀ lat lng : ℝ, haversineDistance lat lng lat lng = 0) := by
  constructor
  · intro lat1 lng1 lat2 lng2
    unfold haversineDistance
    rw [havA_symm]
  · exact haversineDistance_diag

/-- C8.  For a fixed center and feature collection the radius filter is
monotone in the radius: every feature matched at radius `r1 ≤ r2` is also
matched at radius `r2`. -/
theorem filterByDistance_mono (geojson : FeatureCollection) (point : ℝ × ℝ)
    (r1 r2 : ℝ) (h : r1 ≤ r2) :
    (filterByDistance geojson point r1).features ⊆
      (filterByDistance geojson point r2).features := by
  intro f hf
  unfold filterByDistance at hf ⊢
  simp only [List.mem_filter, decide_eq_true_iff] at hf ⊢
  exact ⟨hf.1, le_trans hf.2 h⟩

/-- Witness for C8 at a concrete collection, center and radii `1 ≤ 2`. -/
theorem filterByDistance_mono_witness :
    (1 : ℝ) ≤ 2 ∧
      (filterByDistance ⟨[⟨10.7339, 59.9139, []⟩]⟩ (59.9139, 10.7339) 1).features ⊆
        (filterByDistance ⟨[⟨10.7339, 59.9139, []⟩]⟩ (59.9139, 10.7339) 2).features :=
  ⟨by norm_num,
   filterByDistance_mono ⟨[⟨10.7339, 59.9139, []⟩]⟩ (59.9139, 10.7339) 1 2 (by norm_num)⟩

lemma atan2_nonneg (y x : ℝ) (hy : 0 ≤ y) : 0 ≤ atan2 y x := by
  unfold atan2
  have hpi := Real.pi_pos
  have harc := Real.neg_pi_div_two_lt_arctan (y / x)
  split_ifs with h1 h2 h3 h4
  all_goals try linarith
  have h0 : Real.arctan 0 ≤ Real.arctan (y / x) :=
    Real.arctan_strictMono.monotone (div_nonneg hy (le_of_lt h1))
  rwa [Real.arctan_zero] at h0

lemma haversineDistance_nonneg (lat1 lng1 lat2 lng2 : ℝ) :
    0 ≤ haversineDistance lat1 lng1 lat2 lng2 := by
  unfold haversineDistance
  have h := atan2_nonneg (Real.sqrt (havA lat1 lng1 lat2 lng2))
    (Real.sqrt (1 - havA lat1 lng1 lat2 lng2)) (Real.sqrt_nonneg _)
  positivity

lemma filterByDistance_neg_radius (geojson : FeatureCollection) (point : ℝ × ℝ)
    (r : ℝ) (h : r < 0) : filterByDistance geojson point r = ⟨[]⟩ := by
  unfold filterByDistance
  congr 1
  rw [List.filter_eq_nil_iff]
  intro f _
  simp only [decide_eq_true_iff]
  intro hle
  exact absurd (lt_of_le_of_lt hle h)
    (not_lt.mpr (haversineDistance_nonneg point.1 point.2 f.lat f.lng))

/-- C1 counterexample.  A radius search with `radiusKm = -5` does *not*
fail with `InvalidQueryError` (no such rejection exists in
`performSpatialSearch`): with a search point set and layer data present the
distance filter executes and a result set is produced (here empty, since
every distance is nonnegative). -/
theorem performSpatialSearch_neg5_produces_result :
    performSpatialSearch (some (0, 0)) (some ⟨[⟨0, 0, []⟩]⟩) (-5) =
      .result ⟨[]⟩ := by
  show SearchOutcome.result (filterByDistance ⟨[⟨0, 0, []⟩]⟩ (0, 0) (-5)) = _
  rw [filterByDistance_neg_radius _ _ _ (by norm_num)]

/-- C1 amended.  `performSpatialSearch` performs no radius validation:
for any negative radius, when a search point and layer data exist, the
distance filter runs over the layer and produces an (empty) result set
rather than rejecting the query. -/
theorem performSpatialSearch_no_validation (center : ℝ × ℝ)
    (data : FeatureCollection) (r : ℝ) (h : r < 0) :
    performSpatialSearch (some center) (some data) r = .result ⟨[]⟩ := by
  show SearchOutcome.result (filterByDistance data center r) = _
  rw [filterByDistance_neg_radius _ _ _ h]

/-- Witness for the amended C1 at a concrete state and radius `-5`. -/
theorem performSpatialSearch_no_validation_witness :
    (-5 : ℝ) < 0 ∧
      performSpatialSearch (some (59.9139, 10.7339))
        (some ⟨[⟨5.3221, 60.3913, []⟩]⟩) (-5) = .result ⟨[]⟩ :=
  ⟨by norm_num,
   performSpatialSearch_no_validation (59.9139, 10.7339)
     ⟨[⟨5.3221, 60.3913, []⟩]⟩ (-5) (by norm_num)⟩

end Spatial

namespace MapModel

/-- A layer object as built by `MapModel.addLayer` (MapModel.js lines
19-26): `{name, data: null, visible: true, ...config}` where the configs
passed by `AppController.setupDataSources` supply `name`, `visible` and
`color`.  `data` holds arbitrary GeoJSON, modelled by a type parameter. -/
structure Layer (D : Type) where
  name : String
  data : Option D
  visible : Bool
  color : String
  deriving DecidableEq, Repr

/-- `MapModel.layers`: a JavaScript `Map` from layer identifier to layer
object, modelled as an association list in insertion order. -/
def LayerMap (D : Type) : Type := List (String × Layer D)

/-- In-place mutation of the first (unique) entry with the given key,
modelling `this.layers.get(name).field = value`. -/
def updateLayer {D : Type} : LayerMap D → String → (Layer D → Layer D) → LayerMap D
  | [], _, _ => []
  | (k, l) :: rest, name, f =>
      if k = name then (k, f l) :: rest else (k, l) :: updateLayer rest name f

/-- `MapModel.toggleLayer(name)` (MapModel.js lines 32-39, bundled app.js
lines 451-458): if the layer exists, flip `visible` and return the new
value; otherwise return `false` and leave the store untouched. -/
def toggleLayer {D : Type} (layers : LayerMap D) (name : String) :
    Bool × LayerMap D :=
  match List.lookup name layers with
  | some layer =>
      (!layer.visible, updateLayer layers name (fun l => { l with visible := !l.visible }))
  | none => (false, layers)

/-- `MapModel.setLayerData(layerName, data)` (MapModel.js lines 72-76,
bundled app.js lines 473-477): if the layer exists, assign its `data`
field; otherwise do nothing. -/
def setLayerData {D : Type} (layers : LayerMap D) (layerName : String) (data : D) :
    LayerMap D :=
  match List.lookup layerName layers with
  | some _ => updateLayer layers layerName (fun l => { l with data := some data })
  | none => layers

lemma lookup_updateLayer_self {D : Type} :
    ∀ (layers : LayerMap D) (name : String) (f : Layer D → Layer D) (l : Layer D),
      List.lookup name layers = some l →
      List.lookup name (updateLayer layers name f) = some (f l)
  | [], _, _, _, h => by simp [List.lookup] at h
  | (k, l0) :: rest, name, f, l, h => by
    by_cases hk : k = name
    · subst hk
      simp [List.lookup, updateLayer] at h ⊢
      rw [h]
    · have hne : (name == k) = false := beq_eq_false_iff_ne.mpr (fun e => hk e.symm)
      simp [List.lookup, updateLayer, hk, hne] at h ⊢
      exact lookup_updateLayer_self rest name f l h

lemma lookup_updateLayer_other {D : Type} :
    ∀ (layers : LayerMap D) (name k : String) (f : Layer D → Layer D), k ≠ name →
      List.lookup k (updateLayer layers name f) = List.lookup k layers
  | [], _, _, _, _ => rfl
  | (k0, l0) :: rest, name, k, f, hk => by
    by_cases h0 : k0 = name
    · subst h0
      have hne : (k == k0) = false := beq_eq_false_iff_ne.mpr hk
      simp [List.lookup, updateLayer, hne]
    · simp only [updateLayer, if_neg h0]
      by_cases hkk : k = k0
      · subst hkk
        simp [List.lookup]
      · have hne : (k == k0) = false := beq_eq_false_iff_ne.mpr hkk
        simp [List.lookup, hne]
        exact lookup_updateLayer_other rest name k f hk

/-- C6 counterexample.  `toggleLayer` on an id that is absent does *not*
fail with `UnknownLayerError`: it returns `false` normally and leaves the
store unchanged (code path `return false`, MapModel.js line 38). -/
theorem toggleLayer_missing_returns_false :
    toggleLayer ([("a", ⟨"Local GeoJSON Data", none, true, "#3388ff"⟩)] : LayerMap Nat)
        "missing" =
      (false, [("a", ⟨"Local GeoJSON Data", none, true, "#3388ff"⟩)]) := by
  rfl

/-- C6 amended.  `toggleLayer` flips the `visible` flag and returns the
new visibility when the id names a registered layer; when the id is absent
it returns `false` and leaves the store unchanged — no `UnknownLayerError`
(or any error) is raised. -/
theorem toggleLayer_spec {D : Type} (layers : LayerMap D) (name : String) :
    (∀ l, List.lookup name layers = some l →
        (toggleLayer layers name).1 = !l.visible ∧
        List.lookup name (toggleLayer layers name).2 =
          some { l with visible := !l.visible }) ∧
    (List.lookup name layers = none → toggleLayer layers name = (false, layers)) := by
  constructor
  · intro l hl
    constructor
    · simp [toggleLayer, hl]
    · simp only [toggleLayer, hl]
      exact lookup_updateLayer_self layers name _ l hl
  · intro hn
    simp [toggleLayer, hn]

/-- Witness for the amended C6 at a concrete one-layer store. -/
theorem toggleLayer_spec_witness :
    ((toggleLayer ([("a", ⟨"A", none, true, "#3388ff"⟩)] : LayerMap Nat) "a").1 = !true ∧
      List.lookup "a"
          (toggleLayer ([("a", ⟨"A", none, true, "#3388ff"⟩)] : LayerMap Nat) "a").2 =
        some ⟨"A", none, !true, "#3388ff"⟩) ∧
    toggleLayer ([("a", ⟨"A", none, true, "#3388ff"⟩)] : LayerMap Nat) "b" =
      (false, [("a", ⟨"A", none, true, "#3388ff"⟩)]) := by
  refine ⟨?_, ?_⟩
  · exact (toggleLayer_spec ([("a", ⟨"A", none, true, "#3388ff"⟩)] : LayerMap Nat) "a").1
      ⟨"A", none, true, "#3388ff"⟩ (by rfl)
  · exact (toggleLayer_spec ([("a", ⟨"A", none, true, "#3388ff"⟩)] : LayerMap Nat) "b").2
      (by rfl)

/-- C5 counterexample.  `setLayerData` on a registered layer replaces
only the `data` field: the complete post-state is
`{name, data := some d, visible, color}` — a layer record has no
`lastFetchedAt` field at all, so no fetch timestamp is (or can be)
updated, contradicting the claim's timestamp clause. -/
theorem setLayerData_no_timestamp :
    setLayerData ([("a", ⟨"Local GeoJSON Data", none, true, "#3388ff"⟩)] : LayerMap Nat)
        "a" 7 =
      [("a", ⟨"Local GeoJSON Data", some 7, true, "#3388ff"⟩)] := by
  rfl

/-- C5 amended.  `setLayerData(layerId, collection)` replaces the
registered layer's `data` wholesale (an atomic swap of the field), and is
a silent no-op when the id is unknown; no `lastFetchedAt` timestamp exists
or is updated. -/
theorem setLayerData_spec {D : Type} (layers : LayerMap D) (name : String) (d : D) :
    (∀ l, List.lookup name layers = some l →
        List.lookup name (setLayerData layers name d) = some { l with data := some d }) ∧
    (List.lookup name layers = none → setLayerData layers name d = layers) := by
  constructor
  · intro l hl
    simp only [setLayerData, hl]
    exact lookup_updateLayer_self layers name _ l hl
  · intro hn
    simp [setLayerData, hn]

/-- Witness for the amended C5 at a concrete store. -/
theorem setLayerData_spec_witness :
    (List.lookup "a"
        (setLayerData ([("a", ⟨"A", none, true, "blue"⟩)] : LayerMap Nat) "a" 9) =
      some ⟨"A", some 9, true, "blue"⟩) ∧
    setLayerData ([("a", ⟨"A", none, true, "blue"⟩)] : LayerMap Nat) "b" 9 =
      [("a", ⟨"A", none, true, "blue"⟩)] := by
  refine ⟨?_, ?_⟩
  · exact (setLayerData_spec ([("a", ⟨"A", none, true, "blue"⟩)] : LayerMap Nat) "a" 9).1
      ⟨"A", none, true, "blue"⟩ (by rfl)
  · exact (setLayerData_spec ([("a", ⟨"A", none, true, "blue"⟩)] : LayerMap Nat) "b" 9).2
      (by rfl)

/-- C10.  Frame property of `setLayerData`: when `layerName` is
registered, every other layer is left unchanged, and on the target layer
only `data` changes — `name`, `visible` and `color` keep their previous
values. -/
theorem setLayerData_frame {D : Type} (layers : LayerMap D) (name : String) (d : D)
    (l : Layer D) (hreg : List.lookup name layers = some l) :
    (∀ k, k ≠ name →
        List.lookup k (setLayerData layers name d) = List.lookup k layers) ∧
    List.lookup name (setLayerData layers name d) =
      some ⟨l.name, some d, l.visible, l.color⟩ := by
  constructor
  · intro k hk
    simp only [setLayerData, hreg]
    exact lookup_updateLayer_other layers name k _ hk
  · simp only [setLayerData, hreg]
    exact lookup_updateLayer_self layers name _ l hreg

/-- Witness for C10 at a concrete two-layer store. -/
theorem setLayerData_frame_witness :
    (List.lookup "b"
        (setLayerData
          ([("a", ⟨"A", none, true, "blue"⟩), ("b", ⟨"B", none, false, "red"⟩)] :
            LayerMap Nat) "a" 3) =
      List.lookup "b"
        ([("a", ⟨"A", none, true, "blue"⟩), ("b", ⟨"B", none, false, "red"⟩)] :
          LayerMap Nat)) ∧
    List.lookup "a"
        (setLayerData
          ([("a", ⟨"A", none, true, "blue"⟩), ("b", ⟨"B", none, false, "red"⟩)] :
            LayerMap Nat) "a" 3) =
      some ⟨"A", some 3, true, "blue"⟩ := by
  have h := setLayerData_frame
    ([("a", ⟨"A", none, true, "blue"⟩), ("b", ⟨"B", none, false, "red"⟩)] : LayerMap Nat)
    "a" 3 ⟨"A", none, true, "blue"⟩ (by rfl)
  exact ⟨h.1 "b" (by decide), h.2⟩

end MapModel

namespace Registry

/-- JavaScript `Map.prototype.set`: replace the value of an existing key in
place, or append a new entry at the end. -/
def mapSet {C : Type} : List (String × C) → String → C → List (String × C)
  | [], k, v => [(k, v)]
  | (k0, v0) :: rest, k, v =>
      if k0 = k then (k0, v) :: rest else (k0, v0) :: mapSet rest k v

/-- `DataModel.registerSource(name, config)` (DataModel.js lines 16-18):
`this.dataSources.set(name, config)` — a bare `Map.set` with no duplicate
check. -/
def registerSource {C : Type} (sources : List (String × C)) (name : String)
    (config : C) : List (String × C) :=
  mapSet sources name config

/-- C9 counterexample.  Registering the same source id twice does *not*
fail with `DuplicateSourceError`: the second call silently replaces the
first descriptor (here descriptor `1` is overwritten by `2`), so
registered descriptors are not immutable. -/
theorem registerSource_overwrites :
    registerSource (registerSource ([] : List (String × Nat)) "src" 1) "src" 2 =
      [("src", 2)] := by
  rfl

/-- C9 amended.  `registerSource` always stores the descriptor under
its id, silently overwriting any existing registration with that id; no
error is ever raised. -/
theorem registerSource_stores {C : Type} :
    ∀ (sources : List (String × C)) (name : String) (config : C),
      List.lookup name (registerSource sources name config) = some config
  | [], name, config => by simp [registerSource, mapSet, List.lookup]
  | (k0, v0) :: rest, name, config => by
    by_cases hk : k0 = name
    · subst hk
      simp [registerSource, mapSet, List.lookup]
    · have hne : (name == k0) = false := beq_eq_false_iff_ne.mpr (fun e => hk e.symm)
      simp only [registerSource, mapSet, if_neg hk, List.lookup, hne]
      exact registerSource_stores rest name config

end Registry

namespace Cache

/-!
`DataModel.fetchGeoJSON` (DataModel.js lines 25-40) and
`DataModel.fetchOGCAPI` (lines 48-66) share one caching discipline:

```
if (this.cache.has(key)) return this.cache.get(key);
try {
  const data = await load(...);       // suspension point
  this.cache.set(key, data);
  return data;
} catch (error) { throw error; }      // failure is rethrown, not cached
```

Sequential behaviour is modelled by `fetchStep`; the interleaving of
several in-flight calls on the single cooperative thread is modelled by
the small-step system `CacheSys` below.
-/

/-- One complete (non-interleaved) run of the cached fetch:
given the current cache, the key, and the outcome the underlying load
would produce, return the call's result, the new cache, and how many
times the underlying loader was invoked (`0` or `1`). -/
def fetchStep {V : Type} (cache : List (String × V)) (key : String)
    (loader : Except String V) : Except String V × List (String × V) × Nat :=
  match List.lookup key cache with
  | some v => (.ok v, cache, 0)
  | none =>
    match loader with
    | .ok v => (.ok v, (key, v) :: cache, 1)
    | .error e => (.error e, cache, 1)

/-- C3.  Calling the cached fetch twice sequentially with the same key,
where the first call's loader succeeds, invokes the underlying loader
exactly once: the first call loads and caches the value, and the second
call returns that cached value without invoking its loader (whatever that
loader would have produced). -/
theorem fetchStep_twice_loads_once {V : Type} (cache : List (String × V))
    (key : String) (v : V) (loader2 : Except String V)
    (hmiss : List.lookup key cache = none) :
    (fetchStep cache key (.ok v)).1 = .ok v ∧
    (fetchStep cache key (.ok v)).2.2 = 1 ∧
    (fetchStep (fetchStep cache key (.ok v)).2.1 key loader2).1 = .ok v ∧
    (fetchStep (fetchStep cache key (.ok v)).2.1 key loader2).2.2 = 0 := by
  simp [fetchStep, hmiss, List.lookup]

/-- Witness for C3 on an empty cache with key `"u"` and value `7`; the
second call's loader would fail, underlining that it is never invoked. -/
theorem fetchStep_twice_loads_once_witness :
    (fetchStep ([] : List (String × Nat)) "u" (.ok 7)).1 = .ok 7 ∧
    (fetchStep ([] : List (String × Nat)) "u" (.ok 7)).2.2 = 1 ∧
    (fetchStep (fetchStep ([] : List (String × Nat)) "u" (.ok 7)).2.1 "u"
        (.error "down")).1 = .ok 7 ∧
    (fetchStep (fetchStep ([] : List (String × Nat)) "u" (.ok 7)).2.1 "u"
        (.error "down")).2.2 = 0 :=
  fetchStep_twice_loads_once [] "u" 7 (.error "down") (by rfl)

/-- Phase of one pending call to the cached fetch: `ready` (not yet
started), `inFlight` (cache checked, missed, network request awaited),
or `done` (value returned). -/
inductive Phase (V : Type)
  | ready
  | inFlight
  | done (v : V)
  deriving DecidableEq, Repr

/-- State of the cooperative single-threaded system: the shared cache, the
pending calls (each with its cache key), and the number of underlying
loader invocations issued so far. -/
structure CacheSys (V : Type) where
  cache : List (String × V)
  tasks : List (String × Phase V)
  loaderCalls : Nat
  deriving DecidableEq, Repr

/-- Scheduler events: `start i` runs call `i` up to its first suspension
point (the cache check and, on a miss, the issuing of the network
request); `resolve i v` resumes call `i` when its request completes with
value `v` (the code then writes the cache and returns). -/
inductive Ev (V : Type)
  | start (i : Nat)
  | resolve (i : Nat) (v : V)

/-- One scheduler step over the embedded fetch code. -/
def stepEv {V : Type} (s : CacheSys V) : Ev V → CacheSys V
  | .start i =>
    match s.tasks.get? i with
    | some (key, .ready) =>
      match List.lookup key s.cache with
      | some v => { s with tasks := s.tasks.set i (key, .done v) }
      | none =>
          { s with tasks := s.tasks.set i (key, .inFlight),
                   loaderCalls := s.loaderCalls + 1 }
    | _ => s
  | .resolve i v =>
    match s.tasks.get? i with
    | some (key, .inFlight) =>
        { s with cache := (key, v) :: s.cache,
                 tasks := s.tasks.set i (key, .done v) }
    | _ => s

/-- Run a schedule of events from a state. -/
def runSched {V : Type} (s : CacheSys V) (evs : List (Ev V)) : CacheSys V :=
  evs.foldl stepEv s

/-- C2 counterexample.  Two concurrent fetches for the same key `"k"`:
after the first call starts (its request now in flight), starting the
second call issues a *second* loader invocation — `loaderCalls = 2` — and
both proceed independently to completion.  The cache is written only at
resolution time, so an in-flight fetch is invisible to the cache check and
concurrent duplicates are not joined. -/
theorem concurrent_fetch_duplicates_load :
    (runSched (⟨[], [("k", .ready), ("k", .ready)], 0⟩ : CacheSys Nat)
        [.start 0]).tasks.get? 0 = some ("k", .inFlight) ∧
    (runSched (⟨[], [("k", .ready), ("k", .ready)], 0⟩ : CacheSys Nat)
        [.start 0, .start 1]).loaderCalls = 2 ∧
    (runSched (⟨[], [("k", .ready), ("k", .ready)], 0⟩ : CacheSys Nat)
        [.start 0, .start 1, .resolve 0 7, .resolve 1 7]).loaderCalls = 2 := by
  refine ⟨rfl, rfl, rfl⟩

/-- C2 amended.  The cache deduplicates only *completed* fetches:
whenever a call for key `k` reaches its cache check while `k` is not yet
cached, the loader is invoked (loader-call counter increments) — even if
another fetch for `k` is already in flight.  Joining an in-flight
operation never happens; only a fetch that starts after a prior fetch for
`k` has resolved reuses the cached value without loading. -/
theorem start_on_miss_always_loads {V : Type} (s : CacheSys V) (i : Nat)
    (key : String) (htask : s.tasks[i]? = some (key, .ready)) :
    (List.lookup key s.cache = none →
        stepEv s (.start i) =
          { s with tasks := s.tasks.set i (key, .inFlight),
                   loaderCalls := s.loaderCalls + 1 }) ∧
    (∀ v, List.lookup key s.cache = some v →
        stepEv s (.start i) = { s with tasks := s.tasks.set i (key, .done v) }) := by
  constructor
  · intro hmiss
    simp [stepEv, htask, hmiss]
  · intro v hhit
    simp [stepEv, htask, hhit]

/-- Witness for the amended C2: in the two-task state with task 0 already
in flight for `"k"`, task 1's start still increments the loader counter. -/
theorem start_on_miss_always_loads_witness :
    (([("k", Phase.inFlight), ("k", Phase.ready)] :
        List (String × Phase Nat))[1]? = some ("k", .ready)) ∧
    stepEv (⟨[], [("k", Phase.inFlight), ("k", Phase.ready)], 1⟩ : CacheSys Nat)
        (.start 1) =
      ⟨[], [("k", Phase.inFlight), ("k", Phase.inFlight)], 1 + 1⟩ :=
  ⟨rfl,
   (start_on_miss_always_loads
      (⟨[], [("k", Phase.inFlight), ("k", Phase.ready)], 1⟩ : CacheSys Nat)
      1 "k" (by rfl)).1 (by rfl)⟩

end Cache

namespace Normalize

/-!
Supabase row → Feature normalization, from `AppController.loadLayers` in
the bundled app.js (lines 1053-1082):

```
features: supabaseData.map(item => {
  let coords = [0, 0];
  if (item.geometry) {
    if (typeof item.geometry === 'string') {
      const geom = JSON.parse(item.geometry);   // throws on bad JSON
      coords = geom.coordinates;
    } else if (item.geometry.coordinates) {
      coords = item.geometry.coordinates;
    }
  }
  return { type: 'Feature',
           geometry: { type: 'Point', coordinates: coords },
           properties: { id, name, category, description } };
})
```

Coordinates are exact JSON numbers, modelled as `ℚ`.
-/

/-- The `geometry` column of a Supabase row, as the code case-splits on it:
absent/falsy; an object with a `coordinates` array; an object without one;
a string that `JSON.parse` turns into an object with `coordinates`; or a
string on which `JSON.parse` throws. -/
inductive GeomField
  | absent
  | coordsArr (coords : List ℚ)
  | objNoCoords
  | strParsed (coords : List ℚ)
  | strMalformed
  deriving DecidableEq, Repr

/-- A row returned by `querySupabaseWithSpatial` (columns
`id, name, category, description, geometry`). -/
structure SupaRow where
  rowId : Nat
  name : String
  category : String
  description : String
  geometry : GeomField
  deriving DecidableEq, Repr

/-- The canonical Point Feature the mapping produces. -/
structure SupaFeature where
  coordinates : List ℚ
  propId : Nat
  propName : String
  propCategory : String
  propDescription : String
  deriving DecidableEq, Repr

/-- The body of the `supabaseData.map(item => ...)` callback; a thrown
`JSON.parse` exception is modelled as `Except.error ()`. -/
def rowToFeature (item : SupaRow) : Except Unit SupaFeature :=
  match item.geometry with
  | .absent => .ok ⟨[0, 0], item.rowId, item.name, item.category, item.description⟩
  | .coordsArr c => .ok ⟨c, item.rowId, item.name, item.category, item.description⟩
  | .objNoCoords => .ok ⟨[0, 0], item.rowId, item.name, item.category, item.description⟩
  | .strParsed c => .ok ⟨c, item.rowId, item.name, item.category, item.description⟩
  | .strMalformed => .error ()

/-- The whole `supabaseData.map(...)`: an exception in any callback
invocation aborts the entire mapping (it propagates to the enclosing
`catch`, and no collection is produced at all). -/
def normalizeSupabase : List SupaRow → Except Unit (List SupaFeature)
  | [] => .ok []
  | item :: rest =>
    match rowToFeature item with
    | .error e => .error e
    | .ok f =>
      match normalizeSupabase rest with
      | .error e => .error e
      | .ok fs => .ok (f :: fs)

/-- C4 counterexample.  A row whose geometry is absent is *not* skipped:
it is normalized to a placeholder Point Feature with coordinates `[0, 0]`,
so the output collection has one feature where the claim requires zero. -/
theorem normalize_absent_geometry_not_skipped :
    normalizeSupabase [⟨1, "Oslo", "city", "", .absent⟩] =
      .ok [⟨[0, 0], 1, "Oslo", "city", ""⟩] := by
  rfl

lemma normalizeSupabase_error_of_mem :
    ∀ (rows : List SupaRow), (∃ r ∈ rows, rowToFeature r = .error ()) →
      normalizeSupabase rows = .error ()
  | [], h => by simp at h
  | r0 :: rest, h => by
    obtain ⟨r, hr, hbad⟩ := h
    rcases List.mem_cons.mp hr with he | hm
    · subst he
      simp [normalizeSupabase, hbad]
    · cases h0 : rowToFeature r0 with
      | error e => simp [normalizeSupabase, h0]
      | ok f =>
        have ih := normalizeSupabase_error_of_mem rest ⟨r, hm, hbad⟩
        simp [normalizeSupabase, h0, ih]

/-- C4 amended.  A row whose geometry is a coordinates array, or a
string that parses to a geometry object, maps to a Point Feature with
exactly those coordinates; but a row with absent geometry yields a
placeholder `[0, 0]` feature instead of being skipped, and a row whose
geometry string is unparsable aborts the entire normalization (the
`JSON.parse` exception propagates; no output collection is produced). -/
theorem normalizeSupabase_spec :
    (∀ (i : Nat) (n c d : String) (coords : List ℚ),
        rowToFeature ⟨i, n, c, d, .coordsArr coords⟩ = .ok ⟨coords, i, n, c, d⟩ ∧
        rowToFeature ⟨i, n, c, d, .strParsed coords⟩ = .ok ⟨coords, i, n, c, d⟩ ∧
        rowToFeature ⟨i, n, c, d, .absent⟩ = .ok ⟨[0, 0], i, n, c, d⟩) ∧
    (∀ (rows : List SupaRow) (r : SupaRow), r ∈ rows → r.geometry = .strMalformed →
        normalizeSupabase rows = .error ()) := by
  constructor
  · intro i n c d coords
    exact ⟨rfl, rfl, rfl⟩
  · intro rows r hr hbad
    apply normalizeSupabase_error_of_mem
    refine ⟨r, hr, ?_⟩
    simp [rowToFeature, hbad]

/-- Witness for the amended C4: the spec's own example coordinates
`[10.7339, 59.9139]` delivered as a parsed geometry string, and a
malformed-string row aborting a two-row batch. -/
theorem normalizeSupabase_spec_witness :
    (rowToFeature ⟨1, "Oslo", "city", "", .strParsed [10.7339, 59.9139]⟩ =
        .ok ⟨[10.7339, 59.9139], 1, "Oslo", "city", ""⟩) ∧
    ((⟨2, "Bad", "x", "", .strMalformed⟩ : SupaRow) ∈
        [⟨1, "Oslo", "city", "", .coordsArr [10.7339, 59.9139]⟩,
         (⟨2, "Bad", "x", "", .strMalformed⟩ : SupaRow)] ∧
      normalizeSupabase
          [⟨1, "Oslo", "city", "", .coordsArr [10.7339, 59.9139]⟩,
           ⟨2, "Bad", "x", "", .strMalformed⟩] = .error ()) := by
  refine ⟨(normalizeSupabase_spec.1 1 "Oslo" "city" "" [10.7339, 59.9139]).2.1, ?_, ?_⟩
  · simp
  · exact normalizeSupabase_spec.2
      [⟨1, "Oslo", "city", "", .coordsArr [10.7339, 59.9139]⟩,
       ⟨2, "Bad", "x", "", .strMalformed⟩]
      ⟨2, "Bad", "x", "", .strMalformed⟩ (by simp) rfl

end Normalize
